import Mathlib

/-!
Verification of the EmotionMemCore memory-recall service.

Shallow embedding of the save/search/batch/rate-limit/filter logic of the
repository.  Each definition is translated from the named Python source
location; stateful code is modelled by explicit state passing, machine
floats by `ℚ`, fallible calls by an explicit outcome type.
-/

set_option autoImplicit false

namespace EmotionMemCore

/-! ## Python string helpers

Python `not s.strip()` is true exactly when every character of `s` is
whitespace (or `s` is empty); `len(s)` is `String.length`. -/

/-- Python `not s.strip()`: `s` is empty or all-whitespace. -/
def pyBlank (s : String) : Bool :=
  s.toList.all Char.isWhitespace

/-- Tests whether `needle` is a prefix of `hay` (character lists). -/
def starts_with : List Char → List Char → Bool
  | [], _ => true
  | _ :: _, [] => false
  | a :: as, b :: bs => a == b && starts_with as bs

/-- Python `needle in hay` on strings: `needle` occurs contiguously in `hay`. -/
def contains_sub (needle : List Char) : List Char → Bool
  | [] => needle.isEmpty
  | b :: bs => starts_with needle (b :: bs) || contains_sub needle bs

/-- Chunks of a character list between commas (`"".split(",") == [""]`). -/
def split_commas : List Char → List (List Char)
  | [] => [[]]
  | c :: rest =>
      if c = ',' then [] :: split_commas rest
      else
        match split_commas rest with
        | [] => [[c]]
        | h :: t => (c :: h) :: t

/-- Python `s.split(",")`. -/
def py_split_comma (s : String) : List String :=
  (split_commas s.toList).map (fun l => String.mk l)

/-! ## Emotion vocabulary (`api/schemas/emotion.py`)

The closed 38-tag vocabulary, in source declaration order. -/

inductive Emotion where
  | joy | happiness | excitement | love | gratitude | hope | pride | relief
  | satisfaction | amusement | confidence | inspiration
  | sadness | anger | fear | anxiety | frustration | disappointment
  | loneliness | guilt | shame | regret | jealousy
  | surprise | curiosity | confusion | nostalgia | empathy | sympathy
  | anticipation
  | mischief | shyness | determination | reunion | farewell
  | encouragement | support | trust
deriving DecidableEq, Repr

/-- The Japanese tag string of each `Emotion` member (`Emotion(str, Enum)` values). -/
def Emotion.value : Emotion → String
  | .joy => "喜び"
  | .happiness => "幸せ"
  | .excitement => "興奮"
  | .love => "愛情"
  | .gratitude => "感謝"
  | .hope => "希望"
  | .pride => "誇り"
  | .relief => "安心"
  | .satisfaction => "満足"
  | .amusement => "楽しさ"
  | .confidence => "自信"
  | .inspiration => "感動"
  | .sadness => "悲しみ"
  | .anger => "怒り"
  | .fear => "恐れ"
  | .anxiety => "不安"
  | .frustration => "苛立ち"
  | .disappointment => "失望"
  | .loneliness => "孤独"
  | .guilt => "罪悪感"
  | .shame => "恥"
  | .regret => "後悔"
  | .jealousy => "嫉妬"
  | .surprise => "驚き"
  | .curiosity => "好奇心"
  | .confusion => "困惑"
  | .nostalgia => "懐かしさ"
  | .empathy => "共感"
  | .sympathy => "同情"
  | .anticipation => "期待"
  | .mischief => "いたずら心"
  | .shyness => "恥ずかしさ"
  | .determination => "決意"
  | .reunion => "再会"
  | .farewell => "別れ"
  | .encouragement => "励まし"
  | .support => "支え"
  | .trust => "信頼"

/-- Iteration order `for emotion in Emotion` — declaration order of the enum. -/
def Emotion.all : List Emotion :=
  [.joy, .happiness, .excitement, .love, .gratitude, .hope, .pride, .relief,
   .satisfaction, .amusement, .confidence, .inspiration,
   .sadness, .anger, .fear, .anxiety, .frustration, .disappointment,
   .loneliness, .guilt, .shame, .regret, .jealousy,
   .surprise, .curiosity, .confusion, .nostalgia, .empathy, .sympathy,
   .anticipation,
   .mischief, .shyness, .determination, .reunion, .farewell,
   .encouragement, .support, .trust]

/-! ## Emotion extraction (`core/llm/base.py`, `BaseLLM._extract_emotions`)

The source loop appends every enum member whose Japanese value occurs as a
substring of `emotion_text` (Python `in` on `str`), then evaluates
`list(set(emotions))[:5]`.  The `set` iteration order is not specified by
the language (string hashing is per-process randomised), so the embedding
takes the reordering performed by `list(set(·))` as a parameter
constrained only by what Python guarantees: on a duplicate-free input it
returns some permutation of the input. -/

/-- The loop body of `_extract_emotions`: all enum members whose value is a
substring of `emotion_text`, in enum declaration order (duplicate-free by
construction). -/
def detected_emotions (emotion_text : String) : List Emotion :=
  Emotion.all.filter (fun e => contains_sub e.value.toList emotion_text.toList)

/-- Model of `_extract_emotions`: `list(set(emotions))[:5]`, where `set_order` stands
for the unspecified iteration order of the Python set. -/
def extract_emotions (set_order : List Emotion → List Emotion)
    (emotion_text : String) : List Emotion :=
  (set_order (detected_emotions emotion_text)).take 5

/-- What Python guarantees about `list(set(·))` on a duplicate-free list:
the output is a permutation of the input (the order itself is arbitrary). -/
def models_pyset (f : List Emotion → List Emotion) : Prop :=
  ∀ l : List Emotion, l.Nodup → (f l).Perm l

/-! ## Request / response shapes

`SaveRequest` follows the fields the endpoints and service read
(`user_message`, `ai_message`, optional scoping labels); the
`context_window` payload is carried opaquely to the LLM and is omitted.
The pydantic response classes `SaveResponse` / `SearchResponse` are not
present in the checked-in `api/schemas/memory.py` (its `__init__.py`
imports a `SaveResponse` that the module does not define), so their field
lists are taken from every constructor call in
`services/memory_service.py` and from the spec's interface section.
Millisecond timings are `ℚ` (machine floats are out of scope and no claim
depends on their values). -/

structure SaveRequest where
  user_message : String
  ai_message : String
  user_id : Option String := none
  session_id : Option String := none
  app_name : Option String := none
deriving DecidableEq, Repr

/-- Modelled from the spec: the Save output
`\x7bsuccess, memory_id, summary, emotions[], processing_time_ms, error?\x7d`;
the pydantic class is missing from the checked-in schemas module, and the
fields are exactly those assigned in `services/memory_service.py`. -/
structure SaveResponse where
  success : Bool
  memory_id : Option String := none
  summary : Option String := none
  emotions : List Emotion := []
  processing_time_ms : ℚ := 0
  error : Option String := none
deriving DecidableEq, Repr

/-! ## Batch save (`api/endpoints/batch.py`, `batch_save_memories`)

`memory_service.save_memory` either returns a `SaveResponse` or raises;
`SvcOutcome` is that observable behaviour of one service call.  Each batch
worker (`save_single_memory`) makes exactly one service call, so the
number of service invocations of a run is `0` when pre-flight validation
rejects the batch and the item count otherwise; `batch_save_memories`
returns it alongside the outcome (the spec's "mocks must record zero
invocations" instrument). -/

inductive SvcOutcome where
  | resp (r : SaveResponse)
  | raised (msg : String)
deriving DecidableEq, Repr

/-- One per-item result dict built by `save_single_memory`. -/
structure ItemResult where
  index : Nat
  success : Bool
  memory_id : Option String
  summary : Option String
  emotions : List String
  processing_time_ms : ℚ
  error : Option String
deriving DecidableEq, Repr

/-- Model of `save_single_memory` (batch.py lines 90-118): wraps one service call;
any exception is caught and converted into a failed per-item result, so a
worker always resolves to exactly one result. -/
def save_single_memory (index : Nat) (outcome : SvcOutcome) : ItemResult :=
  match outcome with
  | .resp r =>
      { index := index
        success := r.success
        memory_id := r.memory_id
        summary := if r.success then r.summary else none
        emotions := r.emotions.map Emotion.value
        processing_time_ms := r.processing_time_ms
        error := if r.success then none else r.error }
  | .raised msg =>
      { index := index
        success := false
        memory_id := none
        summary := none
        emotions := []
        processing_time_ms := 0
        error := some ("予期しないエラー: " ++ msg) }

/-- First per-item pre-flight violation (batch.py lines 73-84): the loop
checks `user_message` then `ai_message` of each item, in order, for
blankness only (there is no per-item length check). -/
def first_bad_item : Nat → List SaveRequest → Option String
  | _, [] => none
  | i, r :: rest =>
      if pyBlank r.user_message then
        some ("リクエスト" ++ toString (i + 1) ++ ": user_messageが空です")
      else if pyBlank r.ai_message then
        some ("リクエスト" ++ toString (i + 1) ++ ": ai_messageが空です")
      else first_bad_item (i + 1) rest

/-- Batch pre-flight validation (batch.py lines 58-84): empty batch, batch
size over 100, then the per-item blank checks; `some (status, detail)`
rejects the whole batch before any worker starts. -/
def batch_validate (requests : List SaveRequest) : Option (Nat × String) :=
  if requests.isEmpty then some (400, "保存リクエストが空です")
  else if requests.length > 100 then
    some (400, "バッチサイズが大きすぎます（最大: 100件）")
  else
    match first_bad_item 0 requests with
    | some d => some (400, d)
    | none => none

/-- The fan-out of `enumerate(requests)` through `save_single_memory`,
reassembled in input order (`asyncio.gather` keeps the order of its task
list; the `isinstance(result, Exception)` branch of the aggregation loop
is unreachable because `save_single_memory` catches every exception). -/
def run_batch (svc : Nat → SaveRequest → SvcOutcome) :
    Nat → List SaveRequest → List ItemResult
  | _, [] => []
  | i, r :: rest => save_single_memory i (svc i r) :: run_batch svc (i + 1) rest

/-- The ordered per-item results of a batch run. -/
def batch_results (requests : List SaveRequest)
    (svc : Nat → SaveRequest → SvcOutcome) : List ItemResult :=
  run_batch svc 0 requests

/-- The aggregate batch report (batch.py lines 128-186; the derived
`summary` block of percentages/averages is not referenced by any claim
and is omitted). -/
structure BatchReport where
  success : Bool
  total_requested : Nat
  successful_saves : Nat
  failed_saves : Nat
  results : List ItemResult
deriving DecidableEq, Repr

inductive BatchOutcome where
  | rejected (status : Nat) (detail : String)
  | completed (report : BatchReport)
deriving DecidableEq, Repr

/-- Model of `batch_save_memories`: pre-flight validation, then concurrent fan-out
and aggregation.  The second component counts service invocations. -/
def batch_save_memories (requests : List SaveRequest)
    (svc : Nat → SaveRequest → SvcOutcome) : BatchOutcome × Nat :=
  match batch_validate requests with
  | some (st, d) => (.rejected st d, 0)
  | none =>
      let results := batch_results requests svc
      let successful := (results.filter (fun r => r.success)).length
      let failed := (results.filter (fun r => !r.success)).length
      (.completed
        { success := failed == 0
          total_requested := requests.length
          successful_saves := successful
          failed_saves := failed
          results := results },
       requests.length)

/-! ## Search request and the filter/re-rank conversion
(`infrastructure/db/memory_store.py`, `ChromaMemoryStore.search_memories`)

Timestamps (`created_at`, `date_from`, `date_to`) are `ℚ` instants; the
source stores ISO-8601 strings and compares the parsed `datetime` values,
and parsing is injective and order-preserving, so comparing instants is
the same test.  A candidate is one entry of the Chroma query reply:
`(id, metadata, distance)`. -/

structure SearchRequest where
  query : String
  top_k : Nat := 5
  emotion_filter : Option (List Emotion) := none
  user_id : Option String := none
  date_from : Option ℚ := none
  date_to : Option ℚ := none
deriving DecidableEq, Repr

/-- The metadata dict stored with a memory (memory_store.py lines 87-96):
emotions are kept as one comma-joined string. -/
structure CandidateMeta where
  summary : String
  emotions : String
  user_id : String
  session_id : String
  app_name : String
  created_at : ℚ
deriving DecidableEq, Repr

/-- One nearest-neighbour candidate as returned by the Chroma query. -/
structure Candidate where
  id : String
  metadata : CandidateMeta
  distance : ℚ
deriving DecidableEq, Repr

/-- One converted search result (memory_store.py lines 168-174). -/
structure SearchResult where
  id : String
  score : ℚ
  metadata : CandidateMeta
  summary : String
  emotions : List String
deriving DecidableEq, Repr

/-- The emotion post-filter (memory_store.py lines 153-158): Python
`if request.emotion_filter:` skips the block when the filter is `None`
or the empty list; otherwise the candidate passes iff some filter value
occurs in the comma-split stored emotion string (OR/any-match). -/
def emotion_pass (req : SearchRequest) (meta : CandidateMeta) : Bool :=
  match req.emotion_filter with
  | none => true
  | some ef =>
      if ef.isEmpty then true
      else
        let memory_emotions := py_split_comma meta.emotions
        (ef.map Emotion.value).any (fun ev => memory_emotions.contains ev)

/-- The date post-filter (memory_store.py lines 160-166): evaluated only
when either bound is present; drops candidates strictly before
`date_from` or strictly after `date_to`. -/
def date_pass (req : SearchRequest) (meta : CandidateMeta) : Bool :=
  if req.date_from.isSome || req.date_to.isSome then
    (match req.date_from with
     | some d => !decide (meta.created_at < d)
     | none => true) &&
    (match req.date_to with
     | some d => !decide (d < meta.created_at)
     | none => true)
  else true

/-- Conversion of one surviving candidate (memory_store.py lines 168-174):
score is `1.0 - distance`, with no clamping. -/
def to_result (c : Candidate) : SearchResult :=
  { id := c.id
    score := 1 - c.distance
    metadata := c.metadata
    summary := c.metadata.summary
    emotions := py_split_comma c.metadata.emotions }

/-- The conversion loop over the Chroma reply: emotion filter, then date
filter, then append — i.e. filter both predicates, keep store order, map
to results. -/
def search_convert (req : SearchRequest) (cands : List Candidate) :
    List SearchResult :=
  (cands.filter (fun c => emotion_pass req c.metadata && date_pass req c.metadata)).map
    to_result

/-- The candidate count requested from the store on the similarity search
path (memory_store.py line 142): exactly `request.top_k`. -/
def search_fetch_k (req : SearchRequest) : Nat :=
  req.top_k

/-- The candidate count requested from the store on the list/filter path
(memory_store.py line 253): `min(1000, limit * 10)`. -/
def filter_fetch_k (limit : Nat) : Nat :=
  min 1000 (limit * 10)

/-! ## Service layer (`services/memory_service.py`)

A fallible collaborator call either returns a value or raises. -/

inductive Call (α : Type) where
  | ok (value : α)
  | raised (msg : String)
deriving DecidableEq, Repr

/-- Modelled from the spec: the Search output
`\x7bsuccess, results[], total_count, processing_time_ms, error?\x7d`; the
pydantic class is missing from the checked-in schemas module, and the
fields are exactly those assigned in `services/memory_service.py`. -/
structure SearchResponse where
  success : Bool
  results : List SearchResult := []
  total_count : Nat := 0
  processing_time_ms : ℚ := 0
  error : Option String := none
deriving DecidableEq, Repr

/-- Model of `ChromaMemoryStore.search_memories` as seen by the service: the whole
body is wrapped in `try/except Exception`, and the handler logs and
returns `[]` (memory_store.py lines 178-182) — a store-level fault is
swallowed, never re-raised.  (`ChromaDBClient.search_memories` has the
same shape one level down, returning an empty reply dict.) -/
def store_search (store_call : Call (List Candidate)) (req : SearchRequest) :
    List SearchResult :=
  match store_call with
  | .ok cands => search_convert req cands
  | .raised _ => []

/-- Model of `MemoryService.search_memories` (lines 126-175): embed the query, call
the store, wrap as a success; only an exception escaping those steps
(in practice the embedding call — the store adapter swallows its own)
reaches the `except` branch that builds the failure response. -/
def service_search_memories (embed_call : Call (List ℚ))
    (store_call : Call (List Candidate)) (req : SearchRequest) : SearchResponse :=
  match embed_call with
  | .raised msg =>
      { success := false
        error := some ("検索エラー: " ++ msg)
        results := []
        total_count := 0 }
  | .ok _ =>
      let rs := store_search store_call req
      { success := true
        results := rs
        total_count := rs.length }

/-- An instrumentation record: how many LLM / embedding / store calls a
run performed. -/
structure ProviderLog where
  llm_calls : Nat
  embedding_calls : Nat
  store_calls : Nat
deriving DecidableEq, Repr

def ProviderLog.zero : ProviderLog := ⟨0, 0, 0⟩

/-- The summariser's reply used by the save path. -/
structure LLMResult where
  summary : String
  emotions : List Emotion
deriving DecidableEq, Repr

/-- Model of `MemoryService.save_memory` (lines 35-124): `memory_id = uuid4()` is
drawn before anything else (`fresh_id` here); then LLM, then embedding,
then store; a store result of `False` raises `RuntimeError`, and both
`except` branches return a failure response that still carries
`memory_id=fresh_id`.  The second component counts provider calls. -/
def service_save_memory (fresh_id : String) (llm_call : Call LLMResult)
    (embed_call : Call (List ℚ)) (store_call : Call Bool)
    (_req : SaveRequest) : SaveResponse × ProviderLog :=
  match llm_call with
  | .raised msg =>
      ({ success := false
         error := some ("LLM処理エラー: " ++ msg)
         memory_id := some fresh_id }, ⟨1, 0, 0⟩)
  | .ok lr =>
      match embed_call with
      | .raised msg =>
          ({ success := false
             error := some ("記憶保存エラー: " ++ msg)
             memory_id := some fresh_id }, ⟨1, 1, 0⟩)
      | .ok _ =>
          match store_call with
          | .raised msg =>
              ({ success := false
                 error := some ("記憶保存エラー: " ++ msg)
                 memory_id := some fresh_id }, ⟨1, 1, 1⟩)
          | .ok saved =>
              if saved then
                ({ success := true
                   memory_id := some fresh_id
                   summary := some lr.summary
                   emotions := lr.emotions }, ⟨1, 1, 1⟩)
              else
                ({ success := false
                   error := some "記憶保存エラー: 記憶の保存に失敗しました"
                   memory_id := some fresh_id }, ⟨1, 1, 1⟩)

/-! ## Endpoints (`api/endpoints/save.py`, `api/endpoints/search.py`)

Each endpoint validates, then makes at most one service call; the service
is passed in as a function that also reports its provider-call log, and
the endpoint result carries the log of the run (`ProviderLog.zero` when
the service was never invoked).  Providers and the store are reachable
only through the service, so a zero log means zero provider/store
invocations. -/

inductive EndpointReply (α : Type) where
  | httpError (status : Nat) (detail : String)
  | ok (payload : α)
deriving DecidableEq, Repr

/-- Model of the `save_memory` endpoint (save.py lines 52-103): blank checks, the
10,000-character bounds, then the single service call; a failed service
response is re-raised as HTTP 500. -/
def save_endpoint (req : SaveRequest)
    (svc : SaveRequest → SaveResponse × ProviderLog) :
    EndpointReply SaveResponse × ProviderLog :=
  if pyBlank req.user_message then
    (.httpError 400 "user_messageが空です", .zero)
  else if pyBlank req.ai_message then
    (.httpError 400 "ai_messageが空です", .zero)
  else if req.user_message.length > 10000 then
    (.httpError 400 "user_messageが長すぎます（最大10000文字）", .zero)
  else if req.ai_message.length > 10000 then
    (.httpError 400 "ai_messageが長すぎます（最大10000文字）", .zero)
  else
    let (resp, log) := svc req
    if resp.success then (.ok resp, log)
    else (.httpError 500 (resp.error.getD "記憶保存に失敗しました"), log)

/-- Model of the `search_memories` endpoint (search.py lines 58-124): blank query, the
1–100 `top_k` guard, the 1,000-character query bound, then the single
service call.  Date bounds arrive here already parsed (`Option ℚ`), so
the endpoint's ISO-format re-parse check cannot fail in this embedding. -/
def search_endpoint (req : SearchRequest)
    (svc : SearchRequest → SearchResponse × ProviderLog) :
    EndpointReply SearchResponse × ProviderLog :=
  if pyBlank req.query then
    (.httpError 400 "検索クエリが空です", .zero)
  else if req.top_k = 0 || req.top_k > 100 then
    (.httpError 400 "top_kは1から100の間で指定してください", .zero)
  else if req.query.length > 1000 then
    (.httpError 400 "クエリが長すぎます（最大1000文字）", .zero)
  else
    let (resp, log) := svc req
    if resp.success then (.ok resp, log)
    else (.httpError 500 (resp.error.getD "記憶検索に失敗しました"), log)

/-! ## `top_k` bounds (`api/schemas/memory.py`, `api/endpoints/search.py`,
`api/endpoints/batch.py`)

A single-search request body is first validated by the pydantic
`SearchRequest` schema, then by the endpoint's own range check; batch
search validates `top_k` in the endpoint only.  The raw wire value is an
arbitrary integer. -/

/-- The checked-in schema bound (memory.py line 38):
`top_k: int = Field(5, ge=1, le=20)`. -/
def schema_top_k_ok (k : Int) : Bool :=
  decide (1 ≤ k) && decide (k ≤ 20)

/-- The single-search endpoint bound (search.py lines 66-70):
reject iff `top_k <= 0 or top_k > 100`. -/
def endpoint_top_k_ok (k : Int) : Bool :=
  !(decide (k ≤ 0) || decide (k > 100))

/-- The batch-search endpoint bound (batch.py lines 257-261):
reject iff `top_k <= 0 or top_k > 20`. -/
def batch_top_k_ok (k : Int) : Bool :=
  !(decide (k ≤ 0) || decide (k > 20))

/-- A single-search body passes input validation iff it passes the schema
and then the endpoint check. -/
def single_search_top_k_accepted (k : Int) : Bool :=
  schema_top_k_ok k && endpoint_top_k_ok k

/-! ## Rate limiter (`api/middleware/rate_limit.py`)

State of one identity: the timestamp log (appended in arrival order) and
the burst counter.  `time.time()` instants are `ℚ`.  The periodic
cleanup pass only removes entries older than one hour (and identities
whose whole history aged out); it is a separate concern not referenced by
the burst claim and is not modelled. -/

structure RateLimits where
  burst : Nat
  rpm : Nat
  rph : Nat
deriving DecidableEq, Repr

structure IdentityState where
  request_times : List ℚ
  burst_count : Nat
deriving DecidableEq, Repr

inductive RateDecision where
  | denied (error : String) (reset_in : ℚ)
  | allowed (minute_requests : Nat) (hour_requests : Nat) (burst_requests : Nat)
deriving DecidableEq, Repr

/-- Python `next((t for t in request_times if t > cutoff), now)`. -/
def first_after (cutoff now : ℚ) : List ℚ → ℚ
  | [] => now
  | t :: rest => if cutoff < t then t else first_after cutoff now rest

/-- The per-minute and per-hour checks of `_check_rate_limit` (lines
172-202); `current_burst` is the burst value read before any reset, which
the source echoes in the allowed details. -/
def minute_hour_check (limits : RateLimits) (st : IdentityState) (now : ℚ)
    (current_burst : Nat) : RateDecision × IdentityState :=
  let minute_requests := (st.request_times.filter (fun t => now - 60 < t)).length
  if minute_requests ≥ limits.rpm then
    (.denied "minute_limit_exceeded"
      (60 - (now - first_after (now - 60) now st.request_times)), st)
  else
    let hour_requests := (st.request_times.filter (fun t => now - 3600 < t)).length
    if hour_requests ≥ limits.rph then
      (.denied "hour_limit_exceeded"
        (3600 - (now - first_after (now - 3600) now st.request_times)), st)
    else (.allowed minute_requests hour_requests current_burst, st)

/-- Model of `RateLimiter._check_rate_limit` (lines 148-202).  The burst counter is
examined first; only when it is saturated (`current_burst >= burst`) does
the source look at the elapsed time, resetting the counter to 0 when at
least one second has passed since the most recent recorded request and
otherwise denying with the fixed one-second backoff. -/
def check_rate_limit (limits : RateLimits) (st : IdentityState) (now : ℚ) :
    RateDecision × IdentityState :=
  if st.burst_count ≥ limits.burst then
    match st.request_times.getLast? with
    | some tl =>
        if now - tl ≥ 1 then
          minute_hour_check limits { st with burst_count := 0 } now st.burst_count
        else (.denied "burst_limit_exceeded" (1 - (now - tl)), st)
    | none => (.denied "burst_limit_exceeded" 1, st)
  else minute_hour_check limits st now st.burst_count

/-- Model of `RateLimiter._record_request` (lines 204-215): append the instant and
bump the burst counter. -/
def record_request (st : IdentityState) (now : ℚ) : IdentityState :=
  { request_times := st.request_times ++ [now]
    burst_count := st.burst_count + 1 }

/-- One admission round for an enabled limiter on a non-public endpoint
(`check_rate_limit` lines 217-257): check, and record on allowance. -/
def admission_round (limits : RateLimits) (st : IdentityState) (now : ℚ) :
    Bool × IdentityState :=
  match check_rate_limit limits st now with
  | (.denied _ _, st2) => (false, st2)
  | (.allowed _ _ _, st2) => (true, record_request st2 now)

/-! ## Shared lemmas -/

theorem filter_length_split {α : Type} (p : α → Bool) (l : List α) :
    (l.filter p).length + (l.filter (fun a => !p a)).length = l.length := by
  induction l with
  | nil => rfl
  | cons a t ih =>
      by_cases h : p a = true
      · simp [List.filter_cons, h]
        omega
      · simp [List.filter_cons, h]
        omega

theorem save_single_memory_index (i : Nat) (o : SvcOutcome) :
    (save_single_memory i o).index = i := by
  cases o <;> rfl

theorem run_batch_length (svc : Nat → SaveRequest → SvcOutcome)
    (k : Nat) (reqs : List SaveRequest) :
    (run_batch svc k reqs).length = reqs.length := by
  induction reqs generalizing k with
  | nil => rfl
  | cons r t ih => simp [run_batch, ih]

theorem run_batch_map_index (svc : Nat → SaveRequest → SvcOutcome)
    (k : Nat) (reqs : List SaveRequest) :
    (run_batch svc k reqs).map ItemResult.index = List.range' k reqs.length := by
  induction reqs generalizing k with
  | nil => rfl
  | cons r t ih =>
      simp [run_batch, List.range'_succ, save_single_memory_index, ih]

theorem first_bad_item_isSome : ∀ (requests : List SaveRequest) (i : Nat),
    (∃ r ∈ requests, pyBlank r.user_message = true ∨ pyBlank r.ai_message = true) →
    (first_bad_item i requests).isSome = true
  | [], _, h => by
      rcases h with ⟨r, hr, _⟩
      cases hr
  | a :: t, i, h => by
      unfold first_bad_item
      by_cases h1 : pyBlank a.user_message = true
      · simp [h1]
      · by_cases h2 : pyBlank a.ai_message = true
        · simp [h1, h2]
        · rcases h with ⟨r, hr, hb⟩
          rcases List.mem_cons.mp hr with rfl | hmem
          · rcases hb with hb | hb
            · exact absurd hb h1
            · exact absurd hb h2
          · simpa [h1, h2] using
              first_bad_item_isSome t (i + 1) ⟨r, hmem, hb⟩

theorem detected_emotions_nodup (text : String) :
    (detected_emotions text).Nodup := by
  have hall : Emotion.all.Nodup := by decide
  exact hall.filter _

/-! ## Claim C6 — emotion dedup / cap / ordering -/

/-- Claim C6 as stated is false: `list(set(emotions))[:5]` does not keep a
stable first-appearance order.  `List.reverse` is a legitimate behaviour
of `list(set(·))` on a duplicate-free list, yet on the text 喜び悲しみ it
yields a list different from the first-appearance prefix, so two runs of
the extraction on the same input may disagree. -/
theorem extract_emotions_unstable_cex :
    models_pyset List.reverse ∧
    extract_emotions List.reverse "喜び悲しみ" ≠
      (detected_emotions "喜び悲しみ").take 5 := by
  constructor
  · intro l _
    exact l.reverse_perm
  · decide

/-- Claim C6, amended: each derivation step collapses duplicates and caps
the emotion set at 5 tags drawn from the detected set, but the kept order
(and so, beyond 5 detections, the kept subset) follows the unspecified
Python set iteration order rather than first appearance. -/
theorem extract_emotions_dedup_capped (f : List Emotion → List Emotion)
    (hf : models_pyset f) (text : String) :
    (extract_emotions f text).length ≤ 5 ∧
    (extract_emotions f text).Nodup ∧
    ∀ e ∈ extract_emotions f text, e ∈ detected_emotions text := by
  have hperm := hf (detected_emotions text) (detected_emotions_nodup text)
  refine ⟨?_, ?_, ?_⟩
  · simp [extract_emotions]
  · exact ((hperm.nodup_iff).mpr (detected_emotions_nodup text)).sublist
      (List.take_sublist _ _)
  · intro e he
    exact hperm.mem_iff.mp (List.take_subset _ _ he)

/-- Witness for `extract_emotions_dedup_capped` at the identity set order
and the text 喜び悲しみ. -/
theorem extract_emotions_dedup_capped_witness :
    (extract_emotions id "喜び悲しみ").length ≤ 5 ∧
    (extract_emotions id "喜び悲しみ").Nodup ∧
    ∀ e ∈ extract_emotions id "喜び悲しみ", e ∈ detected_emotions "喜び悲しみ" :=
  extract_emotions_dedup_capped id (fun l _ => List.Perm.refl l) "喜び悲しみ"

/-! ## Claim C1 — batch partial-failure isolation and aggregation -/

/-- Claim C1: for a batch that passes pre-flight validation in which
exactly one item fails at runtime (a failed service response or an
unexpected exception alike), the batch completes with every item
resolving to exactly one result in input order, the report counts exactly
one failure and N-1 successes with overall flag false; and in general the
overall flag of a completed report is true iff the failure count is
zero. -/
theorem batch_partial_failure_report :
    (∀ (requests : List SaveRequest) (svc : Nat → SaveRequest → SvcOutcome),
      batch_validate requests = none →
      ((batch_results requests svc).filter (fun r => !r.success)).length = 1 →
      (batch_save_memories requests svc).1 = .completed
        { success := false
          total_requested := requests.length
          successful_saves := requests.length - 1
          failed_saves := 1
          results := batch_results requests svc } ∧
      (batch_results requests svc).length = requests.length ∧
      (batch_results requests svc).map ItemResult.index =
        List.range requests.length) ∧
    (∀ (requests : List SaveRequest) (svc : Nat → SaveRequest → SvcOutcome)
      (rep : BatchReport),
      (batch_save_memories requests svc).1 = .completed rep →
      (rep.success = true ↔ rep.failed_saves = 0)) := by
  constructor
  · intro requests svc hval hone
    have hsucc : ((batch_results requests svc).filter (fun r => r.success)).length =
        requests.length - 1 := by
      have hsplit := filter_length_split (fun r : ItemResult => r.success)
        (batch_results requests svc)
      have hlen : (batch_results requests svc).length = requests.length :=
        run_batch_length svc 0 requests
      omega
    refine ⟨?_, run_batch_length svc 0 requests, ?_⟩
    · simp [batch_save_memories, hval, hone, hsucc]
    · rw [List.range_eq_range']
      exact run_batch_map_index svc 0 requests
  · intro requests svc rep hrep
    unfold batch_save_memories at hrep
    cases hval : batch_validate requests with
    | some p => rw [hval] at hrep; cases hrep
    | none =>
        rw [hval] at hrep
        simp only [BatchOutcome.completed.injEq] at hrep
        subst hrep
        simp [Nat.beq_eq_true_eq]

def w1_requests : List SaveRequest :=
  [{ user_message := "今日はいい天気ですね！", ai_message := "そうですね！" },
   { user_message := "眠いです", ai_message := "休んでください" },
   { user_message := "ありがとう", ai_message := "どういたしまして" }]

def w1_svc : Nat → SaveRequest → SvcOutcome :=
  fun i _ =>
    if i = 1 then .raised "forced provider error"
    else .resp { success := true, memory_id := some "id-ok", summary := some "要約" }

/-- Witness for `batch_partial_failure_report`: three items, the middle
one raising, yield two successes, one failure and overall failure. -/
theorem batch_partial_failure_report_witness :
    (batch_save_memories w1_requests w1_svc).1 = .completed
      { success := false
        total_requested := w1_requests.length
        successful_saves := w1_requests.length - 1
        failed_saves := 1
        results := batch_results w1_requests w1_svc } :=
  (batch_partial_failure_report.1 w1_requests w1_svc (by decide) (by decide)).1

/-! ## Claim C2 — score derivation and bounds -/

def c2_candidate : Candidate :=
  { id := "m1"
    metadata := { summary := "要約", emotions := "喜び", user_id := "",
                  session_id := "", app_name := "", created_at := 0 }
    distance := 3/2 }

/-- Claim C2 as stated is false: the conversion computes `1.0 - distance`
and never clamps, so a candidate at distance 3/2 (reachable under the
collection's default L2 metric, which the source never configures to a
[0,1]-bounded one) is returned with score -1/2, outside [0,1]. -/
theorem score_not_clamped_cex :
    (search_convert { query := "天気" } [c2_candidate]).map SearchResult.score =
      [-(1/2)] ∧
    ¬ (0 : ℚ) ≤ -(1/2) := by
  constructor
  · simp [search_convert, emotion_pass, date_pass, to_result, c2_candidate]
    norm_num
  · norm_num

/-- Claim C2, amended: every returned result's score is exactly
`1 - distance` of its source candidate, unclamped; scores land in [0,1]
precisely on candidates whose store distance lies in [0,1]. -/
theorem score_eq_one_sub_distance (req : SearchRequest)
    (cands : List Candidate) (r : SearchResult)
    (hr : r ∈ search_convert req cands) :
    ∃ c ∈ cands, r.score = 1 - c.distance ∧
      (0 ≤ c.distance → c.distance ≤ 1 → 0 ≤ r.score ∧ r.score ≤ 1) := by
  unfold search_convert at hr
  rcases List.mem_map.mp hr with ⟨c, hc, rfl⟩
  refine ⟨c, (List.mem_filter.mp hc).1, rfl, fun h0 h1 => ?_⟩
  constructor
  · simpa [to_result] using by linarith
  · simpa [to_result] using by linarith

/-- Witness for `score_eq_one_sub_distance` on a single candidate at
distance 1/2. -/
theorem score_eq_one_sub_distance_witness :
    ∃ c ∈ [{ c2_candidate with distance := 1/2 }],
      (to_result { c2_candidate with distance := 1/2 }).score = 1 - c.distance ∧
      (0 ≤ c.distance → c.distance ≤ 1 →
        0 ≤ (to_result { c2_candidate with distance := 1/2 }).score ∧
        (to_result { c2_candidate with distance := 1/2 }).score ≤ 1) :=
  score_eq_one_sub_distance { query := "天気" }
    [{ c2_candidate with distance := 1/2 }]
    (to_result { c2_candidate with distance := 1/2 })
    (by simp [search_convert, emotion_pass, date_pass])

/-! ## Claim C7 — emotion-filter OR semantics -/

/-- Claim C7: with no date bounds the conversion is exactly the emotion
filter followed by result mapping; an active (non-empty) emotion filter
keeps a candidate iff some filter tag occurs among its stored
comma-split emotions (OR/any-match); a `None` or empty filter imposes no
constraint. -/
theorem emotion_filter_semantics :
    (∀ (req : SearchRequest) (cands : List Candidate),
      req.date_from = none → req.date_to = none →
      search_convert req cands =
        (cands.filter (fun c => emotion_pass req c.metadata)).map to_result) ∧
    (∀ (req : SearchRequest) (meta : CandidateMeta) (ef : List Emotion),
      req.emotion_filter = some ef → ef ≠ [] →
      (emotion_pass req meta = true ↔
        ∃ e ∈ ef, e.value ∈ py_split_comma meta.emotions)) ∧
    (∀ (req : SearchRequest) (meta : CandidateMeta),
      req.emotion_filter = none ∨ req.emotion_filter = some [] →
      emotion_pass req meta = true) := by
  refine ⟨?_, ?_, ?_⟩
  · intro req cands h1 h2
    unfold search_convert
    congr 1
    apply List.filter_congr
    intro c _
    simp [date_pass, h1, h2]
  · intro req meta ef hef hne
    simp only [emotion_pass, hef]
    rw [if_neg (by simpa [List.isEmpty_iff] using hne)]
    simp only [List.any_eq_true, List.mem_map]
    constructor
    · rintro ⟨ev, ⟨e, he, rfl⟩, hmem⟩
      exact ⟨e, he, by simpa using hmem⟩
    · rintro ⟨e, he, hmem⟩
      exact ⟨e.value, ⟨e, he, rfl⟩, by simpa using hmem⟩
  · intro req meta h
    rcases h with h | h <;> simp [emotion_pass, h]

def w7_request : SearchRequest :=
  { query := "楽しい思い出", emotion_filter := some [.joy] }

def w7_candidates : List Candidate :=
  [{ id := "m1"
     metadata := { summary := "s1", emotions := "喜び,悲しみ", user_id := "",
                   session_id := "", app_name := "", created_at := 0 }
     distance := 1/10 },
   { id := "m2"
     metadata := { summary := "s2", emotions := "恐れ", user_id := "",
                   session_id := "", app_name := "", created_at := 0 }
     distance := 1/5 },
   { id := "m3"
     metadata := { summary := "s3", emotions := "喜び", user_id := "",
                   session_id := "", app_name := "", created_at := 0 }
     distance := 3/10 }]

/-- Witness for `emotion_filter_semantics`: with sets 喜び悲しみ / 恐れ /
喜び and filter 喜び, exactly the first and third records survive. -/
theorem emotion_filter_semantics_witness :
    (search_convert w7_request w7_candidates =
      (w7_candidates.filter (fun c => emotion_pass w7_request c.metadata)).map
        to_result) ∧
    (search_convert w7_request w7_candidates).map SearchResult.id = ["m1", "m3"] :=
  ⟨emotion_filter_semantics.1 w7_request w7_candidates rfl rfl, by decide⟩

/-! ## Claim C8 — over-fetch before exact predicates -/

def c8_request : SearchRequest :=
  { query := "天気", top_k := 5, emotion_filter := some [.joy] }

/-- Claim C8 as stated is false: the similarity search path passes
`request.top_k` to the store verbatim even when an exact-match emotion
filter will be applied afterwards, so the candidate count requested is
not strictly greater than `top_k`. -/
theorem search_no_overfetch_cex :
    c8_request.emotion_filter = some [.joy] ∧
    search_fetch_k c8_request = c8_request.top_k ∧
    ¬ search_fetch_k c8_request > c8_request.top_k := by
  refine ⟨rfl, rfl, ?_⟩
  decide

/-- Claim C8, amended: the similarity search path requests exactly
`top_k` candidates; only the list/filter path over-fetches, requesting
`min(1000, limit * 10)`, which strictly exceeds `limit` for every legal
`limit` in 1–500. -/
theorem fetch_sizes (req : SearchRequest) (limit : Nat)
    (h1 : 1 ≤ limit) (h2 : limit ≤ 500) :
    search_fetch_k req = req.top_k ∧ filter_fetch_k limit > limit := by
  refine ⟨rfl, ?_⟩
  unfold filter_fetch_k
  rw [Nat.min_def]
  split <;> omega

/-- Witness for `fetch_sizes` at the default list page size 50. -/
theorem fetch_sizes_witness :
    search_fetch_k { query := "天気" } = ({ query := "天気" } : SearchRequest).top_k ∧
    filter_fetch_k 50 > 50 :=
  fetch_sizes { query := "天気" } 50 (by decide) (by decide)

/-! ## Claim C3 — burst counter reset rule -/

/-- Claim C3 as stated is false: the burst counter is NOT reset whenever
one second has elapsed since the identity's most recent recorded request.
Here the last request is 5 seconds old, yet after the check the counter
still holds 1 (the source consults the elapsed time only once the counter
has reached the burst cap). -/
theorem burst_reset_general_cex :
    (IdentityState.mk [0] 1).request_times.getLast? = some 0 ∧
    (5 : ℚ) - 0 ≥ 1 ∧
    (check_rate_limit ⟨2, 60, 1000⟩ ⟨[0], 1⟩ 5).2.burst_count = 1 := by
  refine ⟨rfl, by norm_num, ?_⟩
  norm_num [check_rate_limit, minute_hour_check]

/-- Claim C3, amended: the burst counter resets to 0 during a check only
when it is saturated (has reached the policy's burst cap) and at least one
second has elapsed since the most recent recorded request, in which case
the decision falls through to the minute/hour checks over the reset
state; a saturated counter within one second of the last request denies
with the fixed one-second backoff.  The concrete burst=2 scenario holds:
two rapid admits, a third within one second denied, and an admit one
second later succeeding with the counter reset (then recording 1). -/
theorem burst_reset_on_saturation :
    (∀ (limits : RateLimits) (st : IdentityState) (now tl : ℚ),
      st.burst_count ≥ limits.burst →
      st.request_times.getLast? = some tl →
      now - tl ≥ 1 →
      check_rate_limit limits st now =
        minute_hour_check limits { st with burst_count := 0 } now st.burst_count) ∧
    (∀ (limits : RateLimits) (st : IdentityState) (now tl : ℚ),
      st.burst_count ≥ limits.burst →
      st.request_times.getLast? = some tl →
      now - tl < 1 →
      check_rate_limit limits st now =
        (.denied "burst_limit_exceeded" (1 - (now - tl)), st)) ∧
    admission_round ⟨2, 60, 1000⟩ ⟨[], 0⟩ 0 = (true, ⟨[0], 1⟩) ∧
    admission_round ⟨2, 60, 1000⟩ ⟨[0], 1⟩ (1/10) = (true, ⟨[0, 1/10], 2⟩) ∧
    (admission_round ⟨2, 60, 1000⟩ ⟨[0, 1/10], 2⟩ (2/10)).1 = false ∧
    admission_round ⟨2, 60, 1000⟩ ⟨[0, 1/10], 2⟩ (6/5) = (true, ⟨[0, 1/10, 6/5], 1⟩) := by
  refine ⟨?_, ?_, ?_, ?_, ?_, ?_⟩
  · intro limits st now tl hsat hlast helap
    unfold check_rate_limit
    rw [if_pos hsat]
    simp only [hlast]
    rw [if_pos helap]
  · intro limits st now tl hsat hlast helap
    unfold check_rate_limit
    rw [if_pos hsat]
    simp only [hlast]
    rw [if_neg (not_le.mpr helap)]
  · norm_num [admission_round, check_rate_limit, minute_hour_check, record_request]
  · norm_num [admission_round, check_rate_limit, minute_hour_check, record_request]
  · norm_num [admission_round, check_rate_limit, minute_hour_check, record_request]
  · norm_num [admission_round, check_rate_limit, minute_hour_check, record_request]

/-- Witness for `burst_reset_on_saturation`: a saturated counter (2 of 2)
whose last request is 11/10 seconds old falls through to the minute/hour
checks over the reset state. -/
theorem burst_reset_on_saturation_witness :
    check_rate_limit ⟨2, 60, 1000⟩ ⟨[0, 1/10], 2⟩ (6/5) =
      minute_hour_check ⟨2, 60, 1000⟩ ⟨[0, 1/10], 0⟩ (6/5) 2 :=
  burst_reset_on_saturation.1 ⟨2, 60, 1000⟩ ⟨[0, 1/10], 2⟩ (6/5) (1/10)
    (by decide) rfl (by norm_num)

/-! ## Claim C4 — validation precedes provider calls -/

def oversized_item : SaveRequest :=
  { user_message := String.mk (List.replicate 10001 'x'), ai_message := "了解です" }

def c4_svc : Nat → SaveRequest → SvcOutcome :=
  fun _ _ => .resp { success := true, memory_id := some "id-1" }

/-- Claim C4 as stated is false: a batch-save item whose message exceeds
10,000 characters passes the batch pre-flight validation (which checks
blankness only, never length) and its worker invokes the service — one
service invocation instead of the zero the claim requires. -/
theorem batch_oversized_reaches_service_cex :
    oversized_item.user_message.length > 10000 ∧
    batch_validate [oversized_item] = none ∧
    (batch_save_memories [oversized_item] c4_svc).2 = 1 := by
  have hlen : oversized_item.user_message.length = 10001 := by
    show (List.replicate 10001 'x').length = 10001
    rw [List.length_replicate]
  have hblank : pyBlank oversized_item.user_message = false := by
    have hmem : 'x' ∈ List.replicate 10001 'x' :=
      List.mem_replicate.mpr ⟨by norm_num, rfl⟩
    show (List.replicate 10001 'x').all Char.isWhitespace = false
    cases hall : (List.replicate 10001 'x').all Char.isWhitespace
    · rfl
    · exact absurd (List.all_eq_true.mp hall 'x' hmem) (by decide)
  have hai : pyBlank oversized_item.ai_message = false := by decide
  have hval : batch_validate [oversized_item] = none := by
    simp [batch_validate, first_bad_item, hblank, hai]
  refine ⟨by omega, hval, ?_⟩
  unfold batch_save_memories
  rw [hval]
  rfl

/-- Claim C4, amended: the single save endpoint rejects empty or oversized
messages, and the single search endpoint rejects empty or oversized
queries, with HTTP 400 and zero provider/store invocations; batch save
rejects a batch containing any blank-message item before any worker
starts (also zero invocations), but performs no per-item length check. -/
theorem validation_before_providers :
    (∀ (req : SaveRequest) (svc : SaveRequest → SaveResponse × ProviderLog),
      (pyBlank req.user_message = true ∨ pyBlank req.ai_message = true ∨
       req.user_message.length > 10000 ∨ req.ai_message.length > 10000) →
      ∃ d, save_endpoint req svc = (.httpError 400 d, .zero)) ∧
    (∀ (req : SearchRequest) (svc : SearchRequest → SearchResponse × ProviderLog),
      (pyBlank req.query = true ∨ req.query.length > 1000) →
      ∃ d, search_endpoint req svc = (.httpError 400 d, .zero)) ∧
    (∀ (requests : List SaveRequest) (svc : Nat → SaveRequest → SvcOutcome)
       (r : SaveRequest), r ∈ requests →
      (pyBlank r.user_message = true ∨ pyBlank r.ai_message = true) →
      ∃ d, batch_save_memories requests svc = (.rejected 400 d, 0)) := by
  refine ⟨?_, ?_, ?_⟩
  · intro req svc h
    by_cases h1 : pyBlank req.user_message = true
    · exact ⟨"user_messageが空です", by simp [save_endpoint, h1]⟩
    by_cases h2 : pyBlank req.ai_message = true
    · exact ⟨"ai_messageが空です", by simp [save_endpoint, h1, h2]⟩
    by_cases h3 : req.user_message.length > 10000
    · exact ⟨"user_messageが長すぎます（最大10000文字）",
        by simp [save_endpoint, h1, h2, h3]⟩
    by_cases h4 : req.ai_message.length > 10000
    · exact ⟨"ai_messageが長すぎます（最大10000文字）",
        by simp [save_endpoint, h1, h2, h3, h4]⟩
    rcases h with h | h | h | h <;> simp_all
  · intro req svc h
    by_cases h1 : pyBlank req.query = true
    · exact ⟨"検索クエリが空です", by simp [search_endpoint, h1]⟩
    by_cases h2 : req.top_k = 0 ∨ req.top_k > 100
    · refine ⟨"top_kは1から100の間で指定してください", ?_⟩
      unfold search_endpoint
      rw [if_neg (by simp [h1])]
      rw [if_pos (by simpa using h2)]
    by_cases h3 : req.query.length > 1000
    · refine ⟨"クエリが長すぎます（最大1000文字）", ?_⟩
      unfold search_endpoint
      rw [if_neg (by simp [h1])]
      rw [if_neg (by simpa using h2)]
      rw [if_pos h3]
    rcases h with h | h <;> simp_all
  · intro requests svc r hr hb
    have hsome := first_bad_item_isSome requests 0 ⟨r, hr, hb⟩
    have hne : requests.isEmpty = false := by
      cases requests
      · cases hr
      · rfl
    by_cases hlen : requests.length > 100
    · exact ⟨"バッチサイズが大きすぎます（最大: 100件）",
        by simp [batch_save_memories, batch_validate, hne, hlen]⟩
    · obtain ⟨d, hd⟩ := Option.isSome_iff_exists.mp hsome
      exact ⟨d, by simp [batch_save_memories, batch_validate, hne, hlen, hd]⟩

def w4_svc : SaveRequest → SaveResponse × ProviderLog :=
  fun _ => ({ success := true }, ⟨1, 1, 1⟩)

/-- Witness for `validation_before_providers`: a blank `user_message` is
rejected with 400 and an all-zero provider log. -/
theorem validation_before_providers_witness :
    ∃ d, save_endpoint { user_message := "   ", ai_message := "了解" } w4_svc =
      (.httpError 400 d, .zero) :=
  validation_before_providers.1 { user_message := "   ", ai_message := "了解" }
    w4_svc (Or.inl (by decide))

/-! ## Claim C5 — store-level failure outcome -/

/-- Claim C5 as stated is false: when the candidate-store call raises, the
store adapter swallows the exception and returns an empty list, so the
service reports a SUCCESSFUL search with zero results, not a "search
failed" outcome. -/
theorem store_failure_reported_success_cex :
    (service_search_memories (.ok []) (.raised "connection refused")
      { query := "天気" }).success = true ∧
    (service_search_memories (.ok []) (.raised "connection refused")
      { query := "天気" }).results = [] :=
  ⟨rfl, rfl⟩

/-- Claim C5, amended: a store-level failure is swallowed by the store
adapter and surfaces as a successful search with zero results — never a
partial ranked list and never a failure payload; only an exception ahead
of the store call (the query-embedding step) produces the distinct
failure outcome, which also carries zero results. -/
theorem store_failure_swallowed (req : SearchRequest) (e : List ℚ) (msg : String) :
    service_search_memories (.ok e) (.raised msg) req =
      { success := true, results := [], total_count := 0 } ∧
    ∀ (msg2 : String) (store_call : Call (List Candidate)),
      service_search_memories (.raised msg2) store_call req =
        { success := false, error := some ("検索エラー: " ++ msg2),
          results := [], total_count := 0 } :=
  ⟨rfl, fun _ _ => rfl⟩

/-! ## Claim C9 — `top_k` acceptance bounds -/

/-- Claim C9 against the checked-in code: the schema layer caps `top_k`
at 20, so a single-search request with `top_k = 50` is rejected even
though the endpoint's own guard (and the claim) accepts 1–100; combined
acceptance is exactly 1–20, and batch search accepts exactly 1–20. -/
theorem top_k_validation_eval :
    single_search_top_k_accepted 50 = false ∧
    endpoint_top_k_ok 50 = true ∧
    schema_top_k_ok 50 = false ∧
    (∀ k : Int, single_search_top_k_accepted k = true ↔ 1 ≤ k ∧ k ≤ 20) ∧
    (∀ k : Int, batch_top_k_ok k = true ↔ 1 ≤ k ∧ k ≤ 20) := by
  refine ⟨by decide, by decide, by decide, ?_, ?_⟩
  · intro k
    simp [single_search_top_k_accepted, schema_top_k_ok, endpoint_top_k_ok]
    omega
  · intro k
    simp [batch_top_k_ok]
    omega

/-! ## Claim C10 — failed saves still carry the fresh id -/

/-- Claim C10: the memory id in the response is the fresh id drawn before
any provider call, whatever the provider outcomes were — in particular a
failed save (LLM, embedding or store failure) returns success=false yet
still carries it; and the save succeeds (persists a record under that id)
exactly when all three calls succeed, so on failure nothing was persisted
under the returned id.  When the LLM call raises, the embedder and store
are never invoked. -/
theorem failed_save_carries_fresh_id (fresh_id : String) (llm_call : Call LLMResult)
    (embed_call : Call (List ℚ)) (store_call : Call Bool) (req : SaveRequest) :
    (service_save_memory fresh_id llm_call embed_call store_call req).1.memory_id =
      some fresh_id ∧
    ((service_save_memory fresh_id llm_call embed_call store_call req).1.success = true ↔
      (∃ lr, llm_call = .ok lr) ∧ (∃ v, embed_call = .ok v) ∧ store_call = .ok true) ∧
    (∀ msg, llm_call = .raised msg →
      (service_save_memory fresh_id llm_call embed_call store_call req).2 = ⟨1, 0, 0⟩) := by
  rcases llm_call with lr | lmsg
  · rcases embed_call with v | emsg
    · rcases store_call with b | smsg
      · cases b
        · exact ⟨rfl, by simp [service_save_memory], by intro msg h; cases h⟩
        · exact ⟨rfl, by simp [service_save_memory], by intro msg h; cases h⟩
      · exact ⟨rfl, by simp [service_save_memory], by intro msg h; cases h⟩
    · exact ⟨rfl, by simp [service_save_memory], by intro msg h; cases h⟩
  · exact ⟨rfl, by simp [service_save_memory], by intro msg h; rfl⟩

/-- Witness for `failed_save_carries_fresh_id`: an LLM timeout still
returns the fresh id, with the embedder and store untouched. -/
theorem failed_save_carries_fresh_id_witness :
    (service_save_memory "id-9" (.raised "timeout") (.ok []) (.ok true)
      { user_message := "眠いです", ai_message := "おやすみなさい" }).1.memory_id =
      some "id-9" ∧
    (service_save_memory "id-9" (.raised "timeout") (.ok []) (.ok true)
      { user_message := "眠いです", ai_message := "おやすみなさい" }).2 = ⟨1, 0, 0⟩ :=
  ⟨(failed_save_carries_fresh_id "id-9" (.raised "timeout") (.ok []) (.ok true)
      { user_message := "眠いです", ai_message := "おやすみなさい" }).1,
   (failed_save_carries_fresh_id "id-9" (.raised "timeout") (.ok []) (.ok true)
      { user_message := "眠いです", ai_message := "おやすみなさい" }).2.2 "timeout" rfl⟩

end EmotionMemCore
